import Mathlib

/-!
Shallow embedding of the discovery-aware reverse proxy in `src/app.js`.

The repository contains two variants of the proxy, concatenated in
`src/app.js`:

* the *minimal variant* (first ~70 lines): `getIpForPod`, a bare HTTP
  handler and a bare upgrade handler;
* the *full variant* (rest of the file): `discoverAndGetIp`,
  `checkAllPodsHavePodId`, the `/health`-aware HTTP handler and the
  upgrade handler with Host rewriting.

Modelling conventions:

* `Date.now()` is a single `now : Nat` per call (milliseconds); time does
  not advance inside one call.
* The JS `Map` `POD_CACHE` is an association list with `Map.get` /
  `Map.set` semantics (`set` updates an existing key in place, otherwise
  appends).
* DNS resolution is an oracle `DnsOutcome`: either a synchronous
  exception that bypasses the per-family `.catch(() => [])` handlers
  (`fatal`), or the pair of per-family asynchronous outcomes, each a
  rejection or an address list (`resolved`); a per-family rejection is
  recovered to `[]` by `.catch(() => [])` exactly as in the source.
* One probe round is an oracle `probe : String → ProbeOutcome` giving,
  per candidate address, either a failed request (`failure` — timeout,
  connection error, or an exception while reading the response) or a
  successful response whose `data.podId?.toString()` is
  `response (some s)` when the field is present and `response none` when
  it is absent.  `Promise.allSettled` preserves input order, so probe
  results are in candidate order.
* Discovery results are instrumented with the number of DNS resolution
  rounds performed (`dnsRounds`) and the list of addresses actually
  probed (`probedIps`), so that "no DNS call / no probe" claims are
  statements about the result.
-/

namespace GameProxy

/-- One entry of `POD_CACHE`: `{ ip, expiresAt }` (milliseconds epoch). -/
structure CacheEntry where
  ip : String
  expiresAt : Nat
deriving Repr, DecidableEq

/-- `POD_CACHE`, a JS `Map` from podId to cache entry. -/
abbrev Cache := List (String × CacheEntry)

/-- `POD_CACHE.get(podId)`. -/
def cacheGet (c : Cache) (podId : String) : Option CacheEntry :=
  match c.find? (fun p => p.1 == podId) with
  | some p => some p.2
  | none => none

/-- `POD_CACHE.set(podId, e)`: JS `Map.set` updates an existing key in
place and appends a new key at the end. -/
def cacheSet (c : Cache) (podId : String) (e : CacheEntry) : Cache :=
  if c.any (fun p => p.1 == podId) then
    c.map (fun p => if p.1 == podId then (podId, e) else p)
  else c ++ [(podId, e)]

/-- Outcome of one identity probe of one candidate address, as observed
after `axios.get(...)` and reading `res.data.podId?.toString()`:
`failure` is a rejected/failed request, `response p` a successful
response whose (stringified) `podId` field is `p` (`none` = absent). -/
inductive ProbeOutcome where
  | failure
  | response (podId : Option String)
deriving Repr, DecidableEq

instance {ε α : Type} [DecidableEq ε] [DecidableEq α] : DecidableEq (Except ε α)
  | .ok a, .ok b => decidable_of_iff (a = b) (by simp)
  | .error a, .error b => decidable_of_iff (a = b) (by simp)
  | .ok _, .error _ => .isFalse (fun h => Except.noConfusion h)
  | .error _, .ok _ => .isFalse (fun h => Except.noConfusion h)

/-- Outcome of one DNS round (`dns.resolve4` + `dns.resolve6`):
`fatal` is a synchronous exception thrown before the per-family
`.catch(() => [])` handlers can run (e.g. invalid hostname argument);
`resolved v4 v6` gives each family's asynchronous outcome, a rejection
(`Except.error`) or an address list (`Except.ok`). -/
inductive DnsOutcome where
  | fatal (msg : String)
  | resolved (v4 : Except String (List String)) (v6 : Except String (List String))
deriving Repr, DecidableEq

/-- `dns.resolveN(...).catch(() => [])`: a rejected family yields `[]`. -/
def familyIps : Except String (List String) → List String
  | .ok l => l
  | .error _ => []

/-- `[...new Set(l)]`: deduplication keeping first occurrences in order. -/
def jsSetDedup (l : List String) : List String :=
  l.foldl (fun acc x => if acc.contains x then acc else acc ++ [x]) []

/-- JS `String.prototype.split` with a one-character separator, on the
character list: `"".split(s)` is `[""]`, a leading/trailing separator
produces an empty field. -/
def splitOnChar (sep : Char) : List Char → List (List Char)
  | [] => [[]]
  | c :: cs =>
    if c == sep then [] :: splitOnChar sep cs
    else
      match splitOnChar sep cs with
      | [] => [[c]]
      | g :: gs => (c :: g) :: gs

/-- JS `s.split(sep)` for a one-character separator. -/
def jsSplit (sep : Char) (s : String) : List String :=
  (splitOnChar sep s.data).map (fun l => String.mk l)

/-- JS `ip.includes(':')` (for the one-character needle this is exactly
character membership). -/
def includesColon (ip : String) : Bool :=
  ip.data.contains ':'

/-- `[...new Set([...ipv4, ...ipv6])]` after the per-family catches. -/
def resolvedIps (v4 v6 : Except String (List String)) : List String :=
  jsSetDedup (familyIps v4 ++ familyIps v6)

/-- TTL of a cache entry written by the full variant's
`discoverAndGetIp`: `Date.now() + 18_000` ("Кэшируем 18 сек"). -/
def DISCOVER_CACHE_TTL_MS : Nat := 18000

/-- TTL of a cache entry written by the minimal variant's
`getIpForPod`: `Date.now() + 15_000` ("Кэшируем на 15 секунд"). -/
def MINIMAL_CACHE_TTL_MS : Nat := 15000

/-- The ternary `ip.includes(':') ? `[ip]` : ip` used by the full
variant everywhere a host:port string is composed. -/
def bracketWrap (ip : String) : String :=
  if includesColon ip then "[" ++ ip ++ "]" else ip

/-- Probe URL of the full variant (`discoverAndGetIp`, line 122, and
`checkAllPodsHavePodId`, line 166). -/
def probeUrl (ip port : String) : String :=
  "http://" ++ bracketWrap ip ++ ":" ++ port ++ "/podid"

/-- Proxy target of the full variant's HTTP handler (line 242). -/
def httpProxyTarget (ip port : String) : String :=
  "http://" ++ bracketWrap ip ++ ":" ++ port

/-- Proxy target of the full variant's upgrade handler (line 278). -/
def wsProxyTarget (ip port : String) : String :=
  "ws://" ++ bracketWrap ip ++ ":" ++ port

/-- Rewritten `Host` header of the full variant's upgrade handler
(line 280). -/
def wsHostHeader (ip port : String) : String :=
  bracketWrap ip ++ ":" ++ port

/-- Probe URL of the minimal variant's `getIpForPod` (line 25):
`http://${ip}:${port}/podid`, with no IPv6 bracket wrapping. -/
def minimalProbeUrl (ip port : String) : String :=
  "http://" ++ ip ++ ":" ++ port ++ "/podid"

/-- Proxy target of the minimal variant's HTTP handler (line 54), no
bracket wrapping. -/
def minimalProxyTarget (ip port : String) : String :=
  "http://" ++ ip ++ ":" ++ port

/-- WebSocket target of the minimal variant's upgrade handler (line 67),
no bracket wrapping. -/
def minimalWsTarget (ip port : String) : String :=
  "ws://" ++ ip ++ ":" ++ port

/-- The settled value of one probe in `discoverAndGetIp` /
`getIpForPod`: a failed request was caught and turned into `null`
(`none`); a successful one into `{ ip, podId }` (`podId` may be
absent). -/
def probeResult (probe : String → ProbeOutcome) (ip : String) :
    Option (String × Option String) :=
  match probe ip with
  | .failure => none
  | .response p => some (ip, p)

/-- The matching loop `for (const result of results) { if (fulfilled &&
value && value.podId === podId) return value.ip }`: first settled result
that is non-null and whose reported podId equals the target. -/
def findMatch (podId : String) :
    List (Option (String × Option String)) → Option String
  | [] => none
  | some (ip, some p) :: rest =>
    if p == podId then some ip else findMatch podId rest
  | _ :: rest => findMatch podId rest

/-- Result of one discovery call, instrumented with the number of DNS
rounds performed and the candidates actually probed. -/
structure DiscoveryResult where
  ip : Option String
  cache : Cache
  dnsRounds : Nat
  probedIps : List String
deriving Repr, DecidableEq

/-- Cache-miss path of the full variant's `discoverAndGetIp`
(lines 100–143): resolve both families (a synchronous DNS exception is
caught and recovered to `null`), return `null` on zero candidates,
otherwise probe every candidate and match; on a match, cache for
`DISCOVER_CACHE_TTL_MS` and return the address, else return `null`
leaving the cache untouched. -/
def discoverMiss (cache : Cache) (now : Nat) (dns : DnsOutcome)
    (probe : String → ProbeOutcome) (podId : String) : DiscoveryResult :=
  match dns with
  | .fatal _ => ⟨none, cache, 1, []⟩
  | .resolved v4 v6 =>
    let ips := resolvedIps v4 v6
    if ips.length = 0 then ⟨none, cache, 1, []⟩
    else
      match findMatch podId (ips.map (probeResult probe)) with
      | some ip =>
        ⟨some ip, cacheSet cache podId ⟨ip, now + DISCOVER_CACHE_TTL_MS⟩, 1, ips⟩
      | none => ⟨none, cache, 1, ips⟩

/-- The full variant's `discoverAndGetIp` (lines 93–144): serve a fresh
cache entry without any DNS or probe; otherwise run the miss path. -/
def discoverAndGetIp (cache : Cache) (now : Nat) (dns : DnsOutcome)
    (probe : String → ProbeOutcome) (podId : String) : DiscoveryResult :=
  match cacheGet cache podId with
  | some cached =>
    if cached.expiresAt > now then ⟨some cached.ip, cache, 0, []⟩
    else discoverMiss cache now dns probe podId
  | none => discoverMiss cache now dns probe podId

/-- Cache-miss path of the minimal variant's `getIpForPod`
(lines 19–40): same resolution and matching, but no zero-candidate
early return (an empty candidate list just yields no match), TTL
`MINIMAL_CACHE_TTL_MS`.  Takes the per-family outcomes directly: the
minimal variant has no surrounding try/catch (see `getIpForPodE`). -/
def getIpForPodMiss (cache : Cache) (now : Nat)
    (v4 v6 : Except String (List String))
    (probe : String → ProbeOutcome) (podId : String) : DiscoveryResult :=
  let allIps := resolvedIps v4 v6
  match findMatch podId (allIps.map (probeResult probe)) with
  | some ip =>
    ⟨some ip, cacheSet cache podId ⟨ip, now + MINIMAL_CACHE_TTL_MS⟩, 1, allIps⟩
  | none => ⟨none, cache, 1, allIps⟩

/-- The minimal variant's `getIpForPod` (lines 13–41). -/
def getIpForPod (cache : Cache) (now : Nat)
    (v4 v6 : Except String (List String))
    (probe : String → ProbeOutcome) (podId : String) : DiscoveryResult :=
  match cacheGet cache podId with
  | some cached =>
    if cached.expiresAt > now then ⟨some cached.ip, cache, 0, []⟩
    else getIpForPodMiss cache now v4 v6 probe podId
  | none => getIpForPodMiss cache now v4 v6 probe podId

/-- The DNS round as a fallible operation: a `fatal` outcome is an
exception reaching the caller, anything else yields the deduplicated
candidate list. -/
def dnsResolveE (dns : DnsOutcome) : Except String (List String) :=
  match dns with
  | .fatal msg => .error msg
  | .resolved v4 v6 => .ok (resolvedIps v4 v6)

/-- Exception-tracking version of `discoverMiss`: the `try { ... }
catch (err) { return null }` around DNS resolution recovers a fatal DNS
exception into `null`; each probe's own try/catch plus
`Promise.allSettled` mean the probe round never rejects. -/
def discoverMissE (cache : Cache) (now : Nat) (dns : DnsOutcome)
    (probe : String → ProbeOutcome) (podId : String) :
    Except String (Option String × Cache) :=
  match dnsResolveE dns with
  | .error _ => .ok (none, cache)
  | .ok ips =>
    if ips.length = 0 then .ok (none, cache)
    else
      match findMatch podId (ips.map (probeResult probe)) with
      | some ip =>
        .ok (some ip, cacheSet cache podId ⟨ip, now + DISCOVER_CACHE_TTL_MS⟩)
      | none => .ok (none, cache)

/-- Exception-tracking version of `discoverAndGetIp`: `Except.error`
would be an exception escaping the function uncaught. -/
def discoverAndGetIpE (cache : Cache) (now : Nat) (dns : DnsOutcome)
    (probe : String → ProbeOutcome) (podId : String) :
    Except String (Option String × Cache) :=
  match cacheGet cache podId with
  | some cached =>
    if cached.expiresAt > now then .ok (some cached.ip, cache)
    else discoverMissE cache now dns probe podId
  | none => discoverMissE cache now dns probe podId

/-- Exception-tracking cache-miss path of the minimal variant's
`getIpForPod`: there is no try/catch around the DNS round, so a fatal
(synchronous) DNS exception escapes uncaught (`Except.error`); every
asynchronous DNS or probe failure is recovered by `.catch(() => [])` /
the per-probe catch, yielding the pure miss result. -/
def getIpForPodMissE (cache : Cache) (now : Nat) (dns : DnsOutcome)
    (probe : String → ProbeOutcome) (podId : String) :
    Except String (Option String × Cache) :=
  match dns with
  | .fatal msg => .error msg
  | .resolved v4 v6 =>
    let r := getIpForPodMiss cache now v4 v6 probe podId
    .ok (r.ip, r.cache)

/-- Exception-tracking version of `getIpForPod`. -/
def getIpForPodE (cache : Cache) (now : Nat) (dns : DnsOutcome)
    (probe : String → ProbeOutcome) (podId : String) :
    Except String (Option String × Cache) :=
  match cacheGet cache podId with
  | some cached =>
    if cached.expiresAt > now then .ok (some cached.ip, cache)
    else getIpForPodMissE cache now dns probe podId
  | none => getIpForPodMissE cache now dns probe podId

/-- Aggregate result of `checkAllPodsHavePodId`: `ok` with the list of
`{ip, podId}` pairs, or `unhealthy` with a reason and, when present in
the JS object, the `success` list. -/
inductive HealthResult where
  | ok (pods : List (String × String))
  | unhealthy (reason : String) (success : Option (List (String × String)))
deriving Repr, DecidableEq

/-- One health probe (lines 165–175): a failed request rejects; a
response whose `data?.podId?.toString()` is absent or falsy (empty)
throws `podId missing`, i.e. also rejects; otherwise the settled value
is `{ ip, podId }`. -/
def healthProbe (probe : String → ProbeOutcome) (ip : String) :
    Except String (String × String) :=
  match probe ip with
  | .failure => .error "request failed"
  | .response none => .error "podId missing"
  | .response (some p) =>
    if p == "" then .error "podId missing" else .ok (ip, p)

/-- Result of one health check call, instrumented like discovery. -/
structure HealthCheckResult where
  result : HealthResult
  dnsRounds : Nat
  probedIps : List String
deriving Repr, DecidableEq

/-- The full variant's `checkAllPodsHavePodId` (lines 146–196): a fatal
DNS exception is caught into `dns_error`; zero candidates is `no_ips`;
otherwise every candidate is probed, any rejection makes the result
`some_pods_unhealthy` carrying the fulfilled values, and with no
rejection the result is `ok` with all values. -/
def checkAllPodsHavePodId (dns : DnsOutcome)
    (probe : String → ProbeOutcome) : HealthCheckResult :=
  match dns with
  | .fatal _ => ⟨.unhealthy "dns_error" none, 1, []⟩
  | .resolved v4 v6 =>
    let ips := resolvedIps v4 v6
    if ips.length = 0 then ⟨.unhealthy "no_ips" none, 1, []⟩
    else
      let results := ips.map (healthProbe probe)
      let failed := results.filter (fun r => match r with
        | .error _ => true
        | .ok _ => false)
      let success := results.filterMap (fun r => match r with
        | .ok v => some v
        | .error _ => none)
      if failed.length > 0 then
        ⟨.unhealthy "some_pods_unhealthy" (some success), 1, ips⟩
      else ⟨.ok success, 1, ips⟩

/-- `url.parse(req.url).pathname`: the request target up to the first
query or fragment delimiter. -/
def urlPathname (u : String) : String :=
  String.mk (u.data.takeWhile (fun c => c != '?' && c != '#'))

/-- `parsed.pathname?.split('/').filter(Boolean) || []`: the non-empty
path segments. -/
def pathSegments (u : String) : List String :=
  (jsSplit '/' (urlPathname u)).filter (fun s => s != "")

/-- What the full variant's HTTP handler does with a request. -/
inductive HttpResponse where
  | health (r : HealthResult)
  | badRequest
  | notFound504
  | proxied (target : String)
deriving Repr, DecidableEq

/-- Result of the full variant's HTTP handler, instrumented with the
cache after the call, the podIds passed to `discoverAndGetIp`, and the
DNS/probe activity of the call. -/
structure HandlerResult where
  response : HttpResponse
  cache : Cache
  discoveries : List String
  dnsRounds : Nat
  probedIps : List String
deriving Repr, DecidableEq

/-- Routing tail of the full variant's HTTP handler (lines 234–254):
discovery for the extracted podId, 504 on `null`, otherwise a proxied
request to `httpProxyTarget`. -/
def routePod (cache : Cache) (now : Nat) (dns : DnsOutcome)
    (probe : String → ProbeOutcome) (port podId : String) : HandlerResult :=
  let d := discoverAndGetIp cache now dns probe podId
  match d.ip with
  | none => ⟨.notFound504, d.cache, [podId], d.dnsRounds, d.probedIps⟩
  | some ip =>
    ⟨.proxied (httpProxyTarget ip port), d.cache, [podId], d.dnsRounds, d.probedIps⟩

/-- Non-health part of the full variant's HTTP handler (lines 221–254):
the first non-empty path segment is the podId; 400 when absent. -/
def routeRequest (cache : Cache) (now : Nat) (dns : DnsOutcome)
    (probe : String → ProbeOutcome) (port u : String) : HandlerResult :=
  match (pathSegments u).head? with
  | none => ⟨.badRequest, cache, [], 0, []⟩
  | some podId => routePod cache now dns probe port podId

/-- The full variant's `http.createServer` handler (lines 200–255):
`GET /health` (exact method and raw-URL match) is answered by the
health aggregator; everything else goes to podId routing. -/
def httpHandler (cache : Cache) (now : Nat) (dns : DnsOutcome)
    (probe : String → ProbeOutcome) (port method u : String) :
    HandlerResult :=
  if method == "GET" && u == "/health" then
    let h := checkAllPodsHavePodId dns probe
    ⟨.health h.result, cache, [], h.dnsRounds, h.probedIps⟩
  else routeRequest cache now dns probe port u

/-- What the full variant's upgrade handler does with a connection. -/
inductive WsOutcome where
  | destroyed
  | proxied (target hostHeader : String)
deriving Repr, DecidableEq

/-- Result of the full variant's upgrade handler. -/
structure WsResult where
  outcome : WsOutcome
  cache : Cache
  discoveries : List String
  dnsRounds : Nat
  probedIps : List String
deriving Repr, DecidableEq

/-- The full variant's `server.on('upgrade')` handler (lines 257–289):
no podId or failed discovery destroys the socket; success rewrites the
Host header and delegates to the proxy at `wsProxyTarget`. -/
def wsHandler (cache : Cache) (now : Nat) (dns : DnsOutcome)
    (probe : String → ProbeOutcome) (port u : String) : WsResult :=
  match (pathSegments u).head? with
  | none => ⟨.destroyed, cache, [], 0, []⟩
  | some podId =>
    let d := discoverAndGetIp cache now dns probe podId
    match d.ip with
    | none => ⟨.destroyed, d.cache, [podId], d.dnsRounds, d.probedIps⟩
    | some ip =>
      ⟨.proxied (wsProxyTarget ip port) (wsHostHeader ip port),
        d.cache, [podId], d.dnsRounds, d.probedIps⟩

/-- `req.url.split('/')[1]` with JS truthiness: the minimal variant's
podId extraction (`undefined` and `''` are both falsy). -/
def minimalPodId (u : String) : Option String :=
  match (jsSplit '/' u)[1]? with
  | some s => if s == "" then none else some s
  | none => none

/-- What the minimal variant's HTTP handler does with a request.
`badRequest` is `res.end('Bad request')` with no `writeHead`, which
sends Node's default status code 200. -/
inductive MinimalHttpOutcome where
  | badRequest
  | notFound404
  | proxied (target : String)
deriving Repr, DecidableEq

/-- HTTP status written by the minimal variant's handler itself
(`none` when the response is delegated to the proxy engine):
`res.end('Bad request')` without `writeHead` sends the default
status 200; the not-found path does `res.writeHead(404)`. -/
def minimalStatus : MinimalHttpOutcome → Option Nat
  | .badRequest => some 200
  | .notFound404 => some 404
  | .proxied _ => none

/-- Result of the minimal variant's HTTP handler. -/
structure MinimalHandlerResult where
  outcome : MinimalHttpOutcome
  cache : Cache
  discoveries : List String
  dnsRounds : Nat
  probedIps : List String
deriving Repr, DecidableEq

/-- The minimal variant's `http.createServer` handler (lines 43–57):
`req.url.split('/')[1]` is the podId; falsy podId ends the response
with body `'Bad request'` (no status written); `null` from
`getIpForPod` is 404; otherwise the request is proxied to
`minimalProxyTarget`. -/
def minimalHttpHandler (cache : Cache) (now : Nat)
    (v4 v6 : Except String (List String))
    (probe : String → ProbeOutcome) (port u : String) :
    MinimalHandlerResult :=
  match minimalPodId u with
  | none => ⟨.badRequest, cache, [], 0, []⟩
  | some podId =>
    let d := getIpForPod cache now v4 v6 probe podId
    match d.ip with
    | none => ⟨.notFound404, d.cache, [podId], d.dnsRounds, d.probedIps⟩
    | some ip =>
      ⟨.proxied (minimalProxyTarget ip port), d.cache, [podId], d.dnsRounds, d.probedIps⟩

/-- What the minimal variant's upgrade handler does. -/
inductive MinimalWsOutcome where
  | destroyed
  | proxied (target : String)
deriving Repr, DecidableEq

/-- Result of the minimal variant's upgrade handler. -/
structure MinimalWsResult where
  outcome : MinimalWsOutcome
  cache : Cache
  discoveries : List String
  dnsRounds : Nat
  probedIps : List String
deriving Repr, DecidableEq

/-- The minimal variant's `server.on('upgrade')` handler (lines 59–69). -/
def minimalWsHandler (cache : Cache) (now : Nat)
    (v4 v6 : Except String (List String))
    (probe : String → ProbeOutcome) (port u : String) :
    MinimalWsResult :=
  match minimalPodId u with
  | none => ⟨.destroyed, cache, [], 0, []⟩
  | some podId =>
    let d := getIpForPod cache now v4 v6 probe podId
    match d.ip with
    | none => ⟨.destroyed, d.cache, [podId], d.dnsRounds, d.probedIps⟩
    | some ip =>
      ⟨.proxied (minimalWsTarget ip port), d.cache, [podId], d.dnsRounds, d.probedIps⟩

/-- Whether the probe oracle reports exactly the target podId for this
candidate (the matching condition of the discovery loop). -/
def probeMatches (probe : String → ProbeOutcome) (podId ip : String) : Bool :=
  match probe ip with
  | .response (some p) => p == podId
  | _ => false

/-- The candidate addresses a DNS outcome yields (none for a fatal
exception). -/
def dnsCandidates : DnsOutcome → List String
  | .fatal _ => []
  | .resolved v4 v6 => resolvedIps v4 v6

/-- The fulfilled health-probe values, in candidate order: the `success`
list computed by `checkAllPodsHavePodId`. -/
def healthSuccesses (probe : String → ProbeOutcome) (dns : DnsOutcome) :
    List (String × String) :=
  (dnsCandidates dns).filterMap (fun ip => (healthProbe probe ip).toOption)

/-- No valid (unexpired) cache entry for this podId at this instant:
the cache-miss condition of both discovery functions. -/
def noValidEntry (cache : Cache) (podId : String) (now : Nat) : Prop :=
  ∀ e, cacheGet cache podId = some e → ¬ e.expiresAt > now

/-! Helper lemmas shared by the claim theorems. -/

theorem findMatch_map_eq_head (probe : String → ProbeOutcome) (podId : String)
    (ips : List String) :
    findMatch podId (ips.map (probeResult probe)) =
      (ips.filter (probeMatches probe podId)).head? := by
  induction ips with
  | nil => rfl
  | cons ip rest ih =>
    simp only [List.map_cons, List.filter_cons]
    cases hp : probe ip with
    | failure =>
      have hm : probeMatches probe podId ip = false := by
        simp [probeMatches, hp]
      simp [probeResult, hp, findMatch, hm, ih]
    | response p =>
      cases p with
      | none =>
        have hm : probeMatches probe podId ip = false := by
          simp [probeMatches, hp]
        simp [probeResult, hp, findMatch, hm, ih]
      | some s =>
        have hm : probeMatches probe podId ip = (s == podId) := by
          simp [probeMatches, hp]
        by_cases hs : (s == podId) = true
        · simp [probeResult, hp, findMatch, hm, hs]
        · simp only [Bool.not_eq_true] at hs
          simp [probeResult, hp, findMatch, hm, hs, ih]

theorem discoverAndGetIp_of_miss (cache : Cache) (now : Nat) (dns : DnsOutcome)
    (probe : String → ProbeOutcome) (podId : String)
    (h : noValidEntry cache podId now) :
    discoverAndGetIp cache now dns probe podId =
      discoverMiss cache now dns probe podId := by
  unfold discoverAndGetIp
  cases hc : cacheGet cache podId with
  | none => rfl
  | some e => exact if_neg (h e hc)

theorem getIpForPod_of_miss (cache : Cache) (now : Nat)
    (v4 v6 : Except String (List String)) (probe : String → ProbeOutcome)
    (podId : String) (h : noValidEntry cache podId now) :
    getIpForPod cache now v4 v6 probe podId =
      getIpForPodMiss cache now v4 v6 probe podId := by
  unfold getIpForPod
  cases hc : cacheGet cache podId with
  | none => rfl
  | some e => exact if_neg (h e hc)

theorem discoverAndGetIp_of_hit (cache : Cache) (now : Nat) (dns : DnsOutcome)
    (probe : String → ProbeOutcome) (podId : String) (e : CacheEntry)
    (hget : cacheGet cache podId = some e) (hfresh : e.expiresAt > now) :
    discoverAndGetIp cache now dns probe podId = ⟨some e.ip, cache, 0, []⟩ := by
  unfold discoverAndGetIp
  rw [hget]
  exact if_pos hfresh

theorem getIpForPod_of_hit (cache : Cache) (now : Nat)
    (v4 v6 : Except String (List String)) (probe : String → ProbeOutcome)
    (podId : String) (e : CacheEntry)
    (hget : cacheGet cache podId = some e) (hfresh : e.expiresAt > now) :
    getIpForPod cache now v4 v6 probe podId = ⟨some e.ip, cache, 0, []⟩ := by
  unfold getIpForPod
  rw [hget]
  exact if_pos hfresh

theorem discoverAndGetIpE_of_miss (cache : Cache) (now : Nat) (dns : DnsOutcome)
    (probe : String → ProbeOutcome) (podId : String)
    (h : noValidEntry cache podId now) :
    discoverAndGetIpE cache now dns probe podId =
      discoverMissE cache now dns probe podId := by
  unfold discoverAndGetIpE
  cases hc : cacheGet cache podId with
  | none => rfl
  | some e => exact if_neg (h e hc)

theorem discoverAndGetIpE_of_hit (cache : Cache) (now : Nat) (dns : DnsOutcome)
    (probe : String → ProbeOutcome) (podId : String) (e : CacheEntry)
    (hget : cacheGet cache podId = some e) (hfresh : e.expiresAt > now) :
    discoverAndGetIpE cache now dns probe podId = .ok (some e.ip, cache) := by
  unfold discoverAndGetIpE
  rw [hget]
  exact if_pos hfresh

theorem getIpForPodE_of_miss (cache : Cache) (now : Nat) (dns : DnsOutcome)
    (probe : String → ProbeOutcome) (podId : String)
    (h : noValidEntry cache podId now) :
    getIpForPodE cache now dns probe podId =
      getIpForPodMissE cache now dns probe podId := by
  unfold getIpForPodE
  cases hc : cacheGet cache podId with
  | none => rfl
  | some e => exact if_neg (h e hc)

theorem getIpForPodE_of_hit (cache : Cache) (now : Nat) (dns : DnsOutcome)
    (probe : String → ProbeOutcome) (podId : String) (e : CacheEntry)
    (hget : cacheGet cache podId = some e) (hfresh : e.expiresAt > now) :
    getIpForPodE cache now dns probe podId = .ok (some e.ip, cache) := by
  unfold getIpForPodE
  rw [hget]
  exact if_pos hfresh

theorem discoverMissE_ok (cache : Cache) (now : Nat) (dns : DnsOutcome)
    (probe : String → ProbeOutcome) (podId : String) :
    discoverMissE cache now dns probe podId =
      .ok ((discoverMiss cache now dns probe podId).ip,
           (discoverMiss cache now dns probe podId).cache) := by
  unfold discoverMissE discoverMiss dnsResolveE
  cases dns with
  | fatal m => rfl
  | resolved v4 v6 =>
    by_cases h : (resolvedIps v4 v6).length = 0
    · simp [h]
    · simp only [h, if_false]
      cases hm : findMatch podId ((resolvedIps v4 v6).map (probeResult probe)) with
      | none => simp [hm]
      | some ip => simp [hm]

/-! Claim theorems. -/

/-- C1: for every podId with a cache entry whose `expiresAt` is strictly
greater than the current time, both discovery operations
(`discoverAndGetIp` of the full variant and `getIpForPod` of the
minimal one) return the cached address, leave the cache unchanged, and
perform no DNS resolution and no identity probes in that call — the
result is independent of the DNS and probe oracles and records zero DNS
rounds and an empty probed-candidate list. -/
theorem cache_hit_serves_cached_ip_without_dns_or_probes
    (cache : Cache) (now : Nat) (dns : DnsOutcome)
    (v4 v6 : Except String (List String)) (probe : String → ProbeOutcome)
    (podId : String) (e : CacheEntry)
    (hget : cacheGet cache podId = some e) (hfresh : e.expiresAt > now) :
    discoverAndGetIp cache now dns probe podId = ⟨some e.ip, cache, 0, []⟩ ∧
    getIpForPod cache now v4 v6 probe podId = ⟨some e.ip, cache, 0, []⟩ := by
  constructor
  · unfold discoverAndGetIp
    rw [hget]
    exact if_pos hfresh
  · unfold getIpForPod
    rw [hget]
    exact if_pos hfresh

/-- Witness for C1 at a concrete fresh cache entry. -/
theorem cache_hit_serves_cached_ip_without_dns_or_probes_witness :
    discoverAndGetIp [("alpha", ⟨"10.0.0.7", 5000⟩)] 0 (.fatal "boom")
        (fun _ => .failure) "alpha" =
      ⟨some "10.0.0.7", [("alpha", ⟨"10.0.0.7", 5000⟩)], 0, []⟩ ∧
    getIpForPod [("alpha", ⟨"10.0.0.7", 5000⟩)] 0 (.ok []) (.ok [])
        (fun _ => .failure) "alpha" =
      ⟨some "10.0.0.7", [("alpha", ⟨"10.0.0.7", 5000⟩)], 0, []⟩ :=
  cache_hit_serves_cached_ip_without_dns_or_probes
    [("alpha", ⟨"10.0.0.7", 5000⟩)] 0 (.fatal "boom") (.ok []) (.ok [])
    (fun _ => .failure) "alpha" ⟨"10.0.0.7", 5000⟩ rfl (by decide)

/-- C8: in a probe round in which no successful result reports the
target podId (no resolved candidate matches), both discovery functions
return the `null` failure result and the cache after the call is
exactly the cache before it. -/
theorem no_match_returns_null_and_cache_unchanged
    (cache : Cache) (now : Nat) (v4 v6 : Except String (List String))
    (probe : String → ProbeOutcome) (podId : String)
    (hmiss : noValidEntry cache podId now)
    (hnone : (resolvedIps v4 v6).filter (probeMatches probe podId) = []) :
    (discoverAndGetIp cache now (.resolved v4 v6) probe podId).ip = none ∧
    (discoverAndGetIp cache now (.resolved v4 v6) probe podId).cache = cache ∧
    (getIpForPod cache now v4 v6 probe podId).ip = none ∧
    (getIpForPod cache now v4 v6 probe podId).cache = cache := by
  have hm : findMatch podId ((resolvedIps v4 v6).map (probeResult probe)) = none := by
    rw [findMatch_map_eq_head, hnone]
    rfl
  rw [discoverAndGetIp_of_miss cache now _ probe podId hmiss,
      getIpForPod_of_miss cache now v4 v6 probe podId hmiss]
  unfold discoverMiss getIpForPodMiss
  by_cases h : (resolvedIps v4 v6).length = 0
  · simp [h, hm]
  · simp [h, hm]

/-- Witness for C8: two candidates, both reporting other identities. -/
theorem no_match_returns_null_and_cache_unchanged_witness :
    (discoverAndGetIp [] 0 (.resolved (.ok ["10.0.0.1", "10.0.0.2"]) (.ok []))
        (fun ip => if ip == "10.0.0.1" then .response (some "alpha")
                   else .response (some "beta")) "gamma").ip = none ∧
    (discoverAndGetIp [] 0 (.resolved (.ok ["10.0.0.1", "10.0.0.2"]) (.ok []))
        (fun ip => if ip == "10.0.0.1" then .response (some "alpha")
                   else .response (some "beta")) "gamma").cache = [] ∧
    (getIpForPod [] 0 (.ok ["10.0.0.1", "10.0.0.2"]) (.ok [])
        (fun ip => if ip == "10.0.0.1" then .response (some "alpha")
                   else .response (some "beta")) "gamma").ip = none ∧
    (getIpForPod [] 0 (.ok ["10.0.0.1", "10.0.0.2"]) (.ok [])
        (fun ip => if ip == "10.0.0.1" then .response (some "alpha")
                   else .response (some "beta")) "gamma").cache = [] :=
  no_match_returns_null_and_cache_unchanged [] 0
    (.ok ["10.0.0.1", "10.0.0.2"]) (.ok [])
    (fun ip => if ip == "10.0.0.1" then .response (some "alpha")
               else .response (some "beta")) "gamma"
    (fun e he => by simp [cacheGet] at he) (by decide)

/-- C9: for every podId and every combination of DNS resolution
outcomes (each family may independently fail) and per-candidate probe
outcomes (timeout, connection error, malformed or missing podId field),
both discovery operations terminate normally with `Except.ok` carrying
either an address or the `null` failure result — no DNS or probe
failure escapes as an uncaught exception.  `discoverAndGetIp`
additionally recovers even a fatal synchronous DNS exception via its
surrounding try/catch. -/
theorem discovery_failures_recovered_not_thrown
    (cache : Cache) (now : Nat) (dns : DnsOutcome)
    (v4 v6 : Except String (List String)) (probe : String → ProbeOutcome)
    (podId : String) :
    discoverAndGetIpE cache now dns probe podId =
      .ok ((discoverAndGetIp cache now dns probe podId).ip,
           (discoverAndGetIp cache now dns probe podId).cache) ∧
    getIpForPodE cache now (.resolved v4 v6) probe podId =
      .ok ((getIpForPod cache now v4 v6 probe podId).ip,
           (getIpForPod cache now v4 v6 probe podId).cache) := by
  constructor
  · by_cases hv : noValidEntry cache podId now
    · rw [discoverAndGetIpE_of_miss cache now dns probe podId hv,
          discoverAndGetIp_of_miss cache now dns probe podId hv]
      exact discoverMissE_ok cache now dns probe podId
    · unfold noValidEntry at hv
      push_neg at hv
      obtain ⟨e, hget, hfresh⟩ := hv
      rw [discoverAndGetIpE_of_hit cache now dns probe podId e hget hfresh,
          discoverAndGetIp_of_hit cache now dns probe podId e hget hfresh]
  · by_cases hv : noValidEntry cache podId now
    · rw [getIpForPodE_of_miss cache now _ probe podId hv,
          getIpForPod_of_miss cache now v4 v6 probe podId hv]
      rfl
    · unfold noValidEntry at hv
      push_neg at hv
      obtain ⟨e, hget, hfresh⟩ := hv
      rw [getIpForPodE_of_hit cache now _ probe podId e hget hfresh,
          getIpForPod_of_hit cache now v4 v6 probe podId e hget hfresh]

/-- C4: on a cache miss, when candidates resolve and exactly one
candidate's probe reports the target identity, discovery returns that
candidate's address and writes a cache entry expiring at the current
time plus the fixed TTL constant; both TTL constants (18 s in the full
variant, 15 s in the minimal one) lie between 15 and 20 seconds (the
spec's time units, stored in milliseconds). -/
theorem unique_match_returns_address_and_caches_with_ttl
    (cache : Cache) (now : Nat) (v4 v6 : Except String (List String))
    (probe : String → ProbeOutcome) (podId c : String)
    (hmiss : noValidEntry cache podId now)
    (huniq : (resolvedIps v4 v6).filter (probeMatches probe podId) = [c]) :
    discoverAndGetIp cache now (.resolved v4 v6) probe podId =
      ⟨some c, cacheSet cache podId ⟨c, now + DISCOVER_CACHE_TTL_MS⟩, 1,
        resolvedIps v4 v6⟩ ∧
    getIpForPod cache now v4 v6 probe podId =
      ⟨some c, cacheSet cache podId ⟨c, now + MINIMAL_CACHE_TTL_MS⟩, 1,
        resolvedIps v4 v6⟩ ∧
    15 * 1000 ≤ DISCOVER_CACHE_TTL_MS ∧ DISCOVER_CACHE_TTL_MS ≤ 20 * 1000 ∧
    15 * 1000 ≤ MINIMAL_CACHE_TTL_MS ∧ MINIMAL_CACHE_TTL_MS ≤ 20 * 1000 := by
  have hne : resolvedIps v4 v6 ≠ [] := by
    intro h
    rw [h] at huniq
    exact List.noConfusion huniq
  have hlen : ¬ (resolvedIps v4 v6).length = 0 := by
    intro h
    exact hne (List.length_eq_zero.mp h)
  have hm : findMatch podId ((resolvedIps v4 v6).map (probeResult probe)) = some c := by
    rw [findMatch_map_eq_head, huniq]
    rfl
  refine ⟨?_, ?_, by decide, by decide, by decide, by decide⟩
  · rw [discoverAndGetIp_of_miss cache now _ probe podId hmiss]
    unfold discoverMiss
    simp only [if_neg hlen, hm]
  · rw [getIpForPod_of_miss cache now v4 v6 probe podId hmiss]
    unfold getIpForPodMiss
    simp only [hm]

/-- Witness for C4: two candidates, exactly one reporting the target. -/
theorem unique_match_returns_address_and_caches_with_ttl_witness :
    discoverAndGetIp [] 0 (.resolved (.ok ["10.0.0.1", "10.0.0.2"]) (.ok []))
        (fun ip => if ip == "10.0.0.2" then .response (some "beta")
                   else .response (some "alpha")) "beta" =
      ⟨some "10.0.0.2", [("beta", ⟨"10.0.0.2", 18000⟩)], 1,
        ["10.0.0.1", "10.0.0.2"]⟩ ∧
    getIpForPod [] 0 (.ok ["10.0.0.1", "10.0.0.2"]) (.ok [])
        (fun ip => if ip == "10.0.0.2" then .response (some "beta")
                   else .response (some "alpha")) "beta" =
      ⟨some "10.0.0.2", [("beta", ⟨"10.0.0.2", 15000⟩)], 1,
        ["10.0.0.1", "10.0.0.2"]⟩ := by
  have h := unique_match_returns_address_and_caches_with_ttl [] 0
    (.ok ["10.0.0.1", "10.0.0.2"]) (.ok [])
    (fun ip => if ip == "10.0.0.2" then .response (some "beta")
               else .response (some "alpha")) "beta" "10.0.0.2"
    (fun e he => by simp [cacheGet] at he) (by decide)
  exact ⟨h.1, h.2.1⟩

/-- C5: when two or more successful probe results report the target
podId, discovery deterministically selects the first matching candidate
in result (candidate) order and returns its address as a success — no
error is signalled. -/
theorem duplicate_identity_first_match_selected
    (cache : Cache) (now : Nat) (v4 v6 : Except String (List String))
    (probe : String → ProbeOutcome) (podId c : String) (rest : List String)
    (hmiss : noValidEntry cache podId now)
    (hdup : (resolvedIps v4 v6).filter (probeMatches probe podId) = c :: rest)
    (_hmulti : rest ≠ []) :
    (discoverAndGetIp cache now (.resolved v4 v6) probe podId).ip = some c ∧
    (getIpForPod cache now v4 v6 probe podId).ip = some c := by
  have hne : resolvedIps v4 v6 ≠ [] := by
    intro h
    rw [h] at hdup
    exact List.noConfusion hdup
  have hlen : ¬ (resolvedIps v4 v6).length = 0 := by
    intro h
    exact hne (List.length_eq_zero.mp h)
  have hm : findMatch podId ((resolvedIps v4 v6).map (probeResult probe)) = some c := by
    rw [findMatch_map_eq_head, hdup]
    rfl
  constructor
  · rw [discoverAndGetIp_of_miss cache now _ probe podId hmiss]
    unfold discoverMiss
    simp only [if_neg hlen, hm]
  · rw [getIpForPod_of_miss cache now v4 v6 probe podId hmiss]
    unfold getIpForPodMiss
    simp only [hm]

/-- Witness for C5: both candidates claim the same podId; the first in
candidate order is chosen. -/
theorem duplicate_identity_first_match_selected_witness :
    (discoverAndGetIp [] 0 (.resolved (.ok ["10.0.0.1", "10.0.0.2"]) (.ok []))
        (fun _ => .response (some "alpha")) "alpha").ip = some "10.0.0.1" ∧
    (getIpForPod [] 0 (.ok ["10.0.0.1", "10.0.0.2"]) (.ok [])
        (fun _ => .response (some "alpha")) "alpha").ip = some "10.0.0.1" :=
  duplicate_identity_first_match_selected [] 0
    (.ok ["10.0.0.1", "10.0.0.2"]) (.ok [])
    (fun _ => .response (some "alpha")) "alpha" "10.0.0.1" ["10.0.0.2"]
    (fun e he => by simp [cacheGet] at he) (by decide) (by decide)

theorem health_no_failures_iff (probe : String → ProbeOutcome)
    (ips : List String) :
    (((ips.map (healthProbe probe)).filter (fun r => match r with
        | .error _ => true
        | .ok _ => false)).length = 0) ↔
      ∀ ip ∈ ips, (healthProbe probe ip).isOk = true := by
  rw [List.length_eq_zero, List.filter_eq_nil_iff]
  constructor
  · intro h ip hip
    have hmem := h (healthProbe probe ip) (List.mem_map_of_mem _ hip)
    cases hr : healthProbe probe ip with
    | ok v => rfl
    | error e =>
      rw [hr] at hmem
      simp at hmem
  · intro h r hr
    rw [List.mem_map] at hr
    obtain ⟨ip, hip, heq⟩ := hr
    subst heq
    have hok := h ip hip
    cases hr2 : healthProbe probe ip with
    | ok v => simp
    | error e =>
      rw [hr2] at hok
      exact Bool.noConfusion hok

theorem health_success_eq (probe : String → ProbeOutcome)
    (ips : List String) :
    (ips.map (healthProbe probe)).filterMap (fun r => match r with
        | .ok v => some v
        | .error _ => none) =
      ips.filterMap (fun ip => (healthProbe probe ip).toOption) := by
  rw [List.filterMap_map]
  congr 1
  funext ip
  simp only [Function.comp_apply]
  cases healthProbe probe ip <;> rfl

theorem checkAll_eq_of_no_failure (v4 v6 : Except String (List String))
    (probe : String → ProbeOutcome)
    (hlen : ¬ (resolvedIps v4 v6).length = 0)
    (hfail : (((resolvedIps v4 v6).map (healthProbe probe)).filter (fun r => match r with
        | .error _ => true
        | .ok _ => false)).length = 0) :
    checkAllPodsHavePodId (.resolved v4 v6) probe =
      ⟨.ok (healthSuccesses probe (.resolved v4 v6)), 1, resolvedIps v4 v6⟩ := by
  have hnfail : ¬ (((resolvedIps v4 v6).map (healthProbe probe)).filter (fun r => match r with
      | .error _ => true
      | .ok _ => false)).length > 0 := by omega
  unfold checkAllPodsHavePodId
  simp only [if_neg hlen, if_neg hnfail]
  rw [health_success_eq]
  rfl

theorem checkAll_eq_of_failure (v4 v6 : Except String (List String))
    (probe : String → ProbeOutcome)
    (hlen : ¬ (resolvedIps v4 v6).length = 0)
    (hfail : (((resolvedIps v4 v6).map (healthProbe probe)).filter (fun r => match r with
        | .error _ => true
        | .ok _ => false)).length > 0) :
    checkAllPodsHavePodId (.resolved v4 v6) probe =
      ⟨.unhealthy "some_pods_unhealthy" (some (healthSuccesses probe (.resolved v4 v6))),
        1, resolvedIps v4 v6⟩ := by
  unfold checkAllPodsHavePodId
  simp only [if_neg hlen, if_pos hfail]
  rw [health_success_eq]
  rfl

/-- C2: the health check returns `ok` if and only if at least one
candidate address resolves and every resolved candidate's probe yields
a parsable podId; otherwise it returns `unhealthy` carrying one of the
reason codes `dns_error`, `no_ips` or `some_pods_unhealthy`, and for
`some_pods_unhealthy` the carried list is exactly the candidates whose
probe succeeded (in candidate order). -/
theorem health_ok_iff_every_candidate_identifies (dns : DnsOutcome)
    (probe : String → ProbeOutcome) :
    ((∃ pods, (checkAllPodsHavePodId dns probe).result = .ok pods) ↔
      (dnsCandidates dns ≠ [] ∧
        ∀ ip ∈ dnsCandidates dns, (healthProbe probe ip).isOk = true)) ∧
    (∀ reason s, (checkAllPodsHavePodId dns probe).result = .unhealthy reason s →
      (reason = "dns_error" ∨ reason = "no_ips" ∨ reason = "some_pods_unhealthy") ∧
      (reason = "some_pods_unhealthy" → s = some (healthSuccesses probe dns))) := by
  cases dns with
  | fatal m =>
    constructor
    · simp [checkAllPodsHavePodId, dnsCandidates]
    · intro reason s h
      simp only [checkAllPodsHavePodId] at h
      obtain ⟨hr, hs⟩ := HealthResult.unhealthy.inj h
      subst hr
      exact ⟨Or.inl rfl, fun hcon => absurd hcon (by decide)⟩
  | resolved v4 v6 =>
    by_cases hlen : (resolvedIps v4 v6).length = 0
    · have hnil : resolvedIps v4 v6 = [] := List.length_eq_zero.mp hlen
      constructor
      · constructor
        · intro ⟨pods, hp⟩
          simp only [checkAllPodsHavePodId, if_pos hlen] at hp
          exact HealthResult.noConfusion hp
        · intro ⟨hne, _⟩
          exact absurd hnil (by simpa [dnsCandidates] using hne)
      · intro reason s h
        simp only [checkAllPodsHavePodId, if_pos hlen] at h
        obtain ⟨hr, hs⟩ := HealthResult.unhealthy.inj h
        subst hr
        exact ⟨Or.inr (Or.inl rfl), fun hcon => absurd hcon (by decide)⟩
    · by_cases hfail : (((resolvedIps v4 v6).map (healthProbe probe)).filter (fun r => match r with
          | .error _ => true
          | .ok _ => false)).length = 0
      · rw [checkAll_eq_of_no_failure v4 v6 probe hlen hfail]
        constructor
        · constructor
          · intro _
            refine ⟨by simpa [dnsCandidates, List.length_eq_zero] using hlen, ?_⟩
            simpa [dnsCandidates] using (health_no_failures_iff probe (resolvedIps v4 v6)).mp hfail
          · intro _
            exact ⟨healthSuccesses probe (.resolved v4 v6), rfl⟩
        · intro reason s h
          exact HealthResult.noConfusion h
      · have hfail2 : (((resolvedIps v4 v6).map (healthProbe probe)).filter (fun r => match r with
            | .error _ => true
            | .ok _ => false)).length > 0 := Nat.pos_of_ne_zero hfail
        rw [checkAll_eq_of_failure v4 v6 probe hlen hfail2]
        constructor
        · constructor
          · intro ⟨pods, hp⟩
            exact HealthResult.noConfusion hp
          · intro ⟨_, hall⟩
            exact absurd ((health_no_failures_iff probe (resolvedIps v4 v6)).mpr
              (by simpa [dnsCandidates] using hall)) hfail
        · intro reason s h
          obtain ⟨hr, hs⟩ := HealthResult.unhealthy.inj h
          subst hr
          subst hs
          exact ⟨Or.inr (Or.inr rfl), fun _ => rfl⟩

/-- Witness for C2: one resolving candidate that identifies itself, so
the health check is `ok`. -/
theorem health_ok_iff_every_candidate_identifies_witness :
    ∃ pods, (checkAllPodsHavePodId (.resolved (.ok ["10.0.0.1"]) (.ok []))
      (fun _ => .response (some "alpha"))).result = .ok pods :=
  (health_ok_iff_every_candidate_identifies
    (.resolved (.ok ["10.0.0.1"]) (.ok []))
    (fun _ => .response (some "alpha"))).1.mpr (by decide)

/-- C3 counterexample: with an empty candidate pool ("no candidates")
and with a non-empty pool in which no candidate reports the target
("pod not found"), `discoverAndGetIp` returns the very same `null`
result, and the dispatcher produces the very same 504 response — the
two conditions are not distinguishable by the caller, contrary to the
claim. -/
theorem no_candidates_result_indistinguishable_counterexample :
    (discoverAndGetIp [] 0 (.resolved (.ok []) (.ok []))
        (fun _ => .failure) "alpha").ip =
      (discoverAndGetIp [] 0 (.resolved (.ok ["10.0.0.1"]) (.ok []))
        (fun _ => .response (some "beta")) "alpha").ip ∧
    (discoverAndGetIp [] 0 (.resolved (.ok []) (.ok []))
        (fun _ => .failure) "alpha").ip = none ∧
    (httpHandler [] 0 (.resolved (.ok []) (.ok []))
        (fun _ => .failure) "2567" "GET" "/alpha").response =
      (httpHandler [] 0 (.resolved (.ok ["10.0.0.1"]) (.ok []))
        (fun _ => .response (some "beta")) "2567" "GET" "/alpha").response ∧
    (httpHandler [] 0 (.resolved (.ok []) (.ok []))
        (fun _ => .failure) "2567" "GET" "/alpha").response = .notFound504 :=
  ⟨rfl, rfl, rfl, rfl⟩

/-- C3 amended: when DNS resolution yields zero candidate addresses,
discovery returns the same `null` failure result, with the cache
unchanged, that it returns when candidates exist but none reports the
target podId; the two conditions are logged differently but are not
distinguishable by the caller. -/
theorem no_candidates_and_not_found_yield_same_null
    (cache : Cache) (now : Nat) (probe probe2 : String → ProbeOutcome)
    (podId : String) (v4 v6 v4n v6n : Except String (List String))
    (hmiss : noValidEntry cache podId now)
    (hempty : resolvedIps v4 v6 = [])
    (hnomatch : (resolvedIps v4n v6n).filter (probeMatches probe2 podId) = []) :
    (discoverAndGetIp cache now (.resolved v4 v6) probe podId).ip = none ∧
    (discoverAndGetIp cache now (.resolved v4 v6) probe podId).cache = cache ∧
    (discoverAndGetIp cache now (.resolved v4n v6n) probe2 podId).ip = none ∧
    (discoverAndGetIp cache now (.resolved v4n v6n) probe2 podId).cache = cache := by
  have hlen : (resolvedIps v4 v6).length = 0 := by
    rw [hempty]
    rfl
  have hm : findMatch podId ((resolvedIps v4n v6n).map (probeResult probe2)) = none := by
    rw [findMatch_map_eq_head, hnomatch]
    rfl
  rw [discoverAndGetIp_of_miss cache now (.resolved v4 v6) probe podId hmiss,
      discoverAndGetIp_of_miss cache now (.resolved v4n v6n) probe2 podId hmiss]
  refine ⟨?_, ?_, ?_, ?_⟩ <;>
    · unfold discoverMiss
      by_cases h2 : (resolvedIps v4n v6n).length = 0 <;>
        simp [hlen, h2, hm]

/-- Witness for C3's amended statement at concrete inputs. -/
theorem no_candidates_and_not_found_yield_same_null_witness :
    (discoverAndGetIp [] 0 (.resolved (.error "ENOTFOUND") (.error "ENOTFOUND"))
        (fun _ => .failure) "alpha").ip = none ∧
    (discoverAndGetIp [] 0 (.resolved (.error "ENOTFOUND") (.error "ENOTFOUND"))
        (fun _ => .failure) "alpha").cache = [] ∧
    (discoverAndGetIp [] 0 (.resolved (.ok ["10.0.0.1"]) (.ok []))
        (fun _ => .response (some "beta")) "alpha").ip = none ∧
    (discoverAndGetIp [] 0 (.resolved (.ok ["10.0.0.1"]) (.ok []))
        (fun _ => .response (some "beta")) "alpha").cache = [] :=
  no_candidates_and_not_found_yield_same_null [] 0
    (fun _ => .failure) (fun _ => .response (some "beta")) "alpha"
    (.error "ENOTFOUND") (.error "ENOTFOUND") (.ok ["10.0.0.1"]) (.ok [])
    (fun e he => by simp [cacheGet] at he) (by decide) (by decide)

/-- C6 counterexample: on the minimal variant, a request to `/` is
rejected with body `Bad request` but *without* `writeHead(400)` — the
response goes out with Node's default status 200, not 400 (discovery is
still never invoked). -/
theorem minimal_missing_podid_responds_200_counterexample :
    (minimalHttpHandler [] 0 (.ok []) (.ok [])
        (fun _ => .failure) "2567" "/").outcome = .badRequest ∧
    minimalStatus (minimalHttpHandler [] 0 (.ok []) (.ok [])
        (fun _ => .failure) "2567" "/").outcome = some 200 ∧
    minimalStatus (minimalHttpHandler [] 0 (.ok []) (.ok [])
        (fun _ => .failure) "2567" "/").outcome ≠ some 400 ∧
    (minimalHttpHandler [] 0 (.ok []) (.ok [])
        (fun _ => .failure) "2567" "/").discoveries = [] :=
  ⟨rfl, rfl, by decide, rfl⟩

/-- C6 amended: a request whose path yields no non-empty first segment
is rejected before any discovery (no DNS round, no probe, no cache
write): the full variant's HTTP handler responds 400, the minimal
variant's handler ends the response with body `Bad request` and Node's
default status 200 (not 400), and both upgrade handlers destroy the raw
socket. -/
theorem missing_podid_rejected_before_discovery
    (cache : Cache) (now : Nat) (dns : DnsOutcome)
    (v4 v6 : Except String (List String)) (probe : String → ProbeOutcome)
    (port method u : String) :
    ((pathSegments u).head? = none →
      httpHandler cache now dns probe port method u =
        ⟨.badRequest, cache, [], 0, []⟩ ∧
      wsHandler cache now dns probe port u = ⟨.destroyed, cache, [], 0, []⟩) ∧
    (minimalPodId u = none →
      minimalHttpHandler cache now v4 v6 probe port u =
        ⟨.badRequest, cache, [], 0, []⟩ ∧
      minimalWsHandler cache now v4 v6 probe port u =
        ⟨.destroyed, cache, [], 0, []⟩) := by
  constructor
  · intro h
    have hu : u ≠ "/health" := by
      intro he
      subst he
      exact absurd h (by decide)
    have hnb : ¬ ((method == "GET" && u == "/health") = true) := by
      have hb : (u == "/health") = false := beq_eq_false_iff_ne.mpr hu
      simp [hb]
    constructor
    · unfold httpHandler routeRequest
      rw [if_neg hnb, h]
    · unfold wsHandler
      rw [h]
  · intro h
    constructor
    · unfold minimalHttpHandler
      rw [h]
    · unfold minimalWsHandler
      rw [h]

/-- Witness for C6's amended statement at url `/`. -/
theorem missing_podid_rejected_before_discovery_witness :
    httpHandler [] 0 (.fatal "boom") (fun _ => .failure) "2567" "GET" "/" =
      ⟨.badRequest, [], [], 0, []⟩ ∧
    minimalWsHandler [] 0 (.ok []) (.ok []) (fun _ => .failure) "2567" "/" =
      ⟨.destroyed, [], [], 0, []⟩ :=
  ⟨((missing_podid_rejected_before_discovery [] 0 (.fatal "boom") (.ok []) (.ok [])
      (fun _ => .failure) "2567" "GET" "/").1 (by decide)).1,
   ((missing_podid_rejected_before_discovery [] 0 (.fatal "boom") (.ok []) (.ok [])
      (fun _ => .failure) "2567" "GET" "/").2 (by decide)).2⟩

/-- C7: in the full variant, every composed host:port string (probe
URL, HTTP proxy target, WebSocket proxy target, rewritten Host header)
bracket-wraps an address containing a colon (IPv6) and leaves other
addresses unwrapped; but the minimal variant's probe URL composition
never bracket-wraps, so for the IPv6 candidate `::1` it produces the
unbracketed (invalid) `http://::1:2567/podid`. -/
theorem ipv6_bracket_wrapping_in_host_port_composition (ip port : String) :
    (includesColon ip = true →
      probeUrl ip port = "http://" ++ "[" ++ ip ++ "]" ++ ":" ++ port ++ "/podid" ∧
      httpProxyTarget ip port = "http://" ++ "[" ++ ip ++ "]" ++ ":" ++ port ∧
      wsProxyTarget ip port = "ws://" ++ "[" ++ ip ++ "]" ++ ":" ++ port ∧
      wsHostHeader ip port = "[" ++ ip ++ "]" ++ ":" ++ port) ∧
    (includesColon ip = false →
      probeUrl ip port = "http://" ++ ip ++ ":" ++ port ++ "/podid" ∧
      httpProxyTarget ip port = "http://" ++ ip ++ ":" ++ port ∧
      wsProxyTarget ip port = "ws://" ++ ip ++ ":" ++ port ∧
      wsHostHeader ip port = ip ++ ":" ++ port) ∧
    minimalProbeUrl "::1" "2567" = "http://::1:2567/podid" ∧
    minimalProbeUrl "::1" "2567" ≠ "http://[::1]:2567/podid" := by
  refine ⟨?_, ?_, rfl, by decide⟩
  · intro h
    refine ⟨?_, ?_, ?_, ?_⟩ <;>
      simp [probeUrl, httpProxyTarget, wsProxyTarget, wsHostHeader,
        bracketWrap, h, ← String.append_assoc]
  · intro h
    refine ⟨?_, ?_, ?_, ?_⟩ <;>
      simp [probeUrl, httpProxyTarget, wsProxyTarget, wsHostHeader,
        bracketWrap, h]

/-- Witness for C7 at the IPv6 loopback and an IPv4 address. -/
theorem ipv6_bracket_wrapping_in_host_port_composition_witness :
    probeUrl "::1" "2567" = "http://" ++ "[" ++ "::1" ++ "]" ++ ":" ++ "2567" ++ "/podid" ∧
    wsHostHeader "10.0.0.1" "2567" = "10.0.0.1" ++ ":" ++ "2567" :=

  ⟨((ipv6_bracket_wrapping_in_host_port_composition "::1" "2567").1 (by decide)).1,
   (((ipv6_bracket_wrapping_in_host_port_composition "10.0.0.1" "2567").2.1
      (by decide)).2.2.2)⟩

theorem routePod_response_not_health (cache : Cache) (now : Nat)
    (dns : DnsOutcome) (probe : String → ProbeOutcome) (port podId : String) :
    ∀ hr, (routePod cache now dns probe port podId).response ≠ .health hr := by
  intro hr
  simp only [routePod]
  cases hip : (discoverAndGetIp cache now dns probe podId).ip with
  | none => exact fun hcon => HttpResponse.noConfusion hcon
  | some ip => exact fun hcon => HttpResponse.noConfusion hcon

theorem routePod_discoveries (cache : Cache) (now : Nat)
    (dns : DnsOutcome) (probe : String → ProbeOutcome) (port podId : String) :
    (routePod cache now dns probe port podId).discoveries = [podId] := by
  simp only [routePod]
  cases hip : (discoverAndGetIp cache now dns probe podId).ip with
  | none => rfl
  | some ip => rfl

/-- C10: the health endpoint is matched only by method `GET` with raw
request URL exactly `/health`; any other request — including
`GET /health?x=1` and `POST /health` — falls through to podId routing,
which for those two extracts `health` as the podId and invokes
discovery for it. -/
theorem health_endpoint_matched_only_by_exact_get_health
    (cache : Cache) (now : Nat) (dns : DnsOutcome)
    (probe : String → ProbeOutcome) (port method u : String) :
    ((∃ hr, (httpHandler cache now dns probe port method u).response = .health hr) ↔
      (method = "GET" ∧ u = "/health")) ∧
    (httpHandler cache now dns probe port "GET" "/health?x=1").discoveries = ["health"] ∧
    (httpHandler cache now dns probe port "POST" "/health").discoveries = ["health"] := by
  refine ⟨⟨?_, ?_⟩, ?_, ?_⟩
  · intro ⟨hr, hh⟩
    by_cases hb : (method == "GET" && u == "/health") = true
    · rw [Bool.and_eq_true] at hb
      exact ⟨eq_of_beq hb.1, eq_of_beq hb.2⟩
    · exfalso
      unfold httpHandler routeRequest at hh
      rw [if_neg hb] at hh
      cases hs : (pathSegments u).head? with
      | none =>
        rw [hs] at hh
        exact HttpResponse.noConfusion hh
      | some podId =>
        rw [hs] at hh
        exact routePod_response_not_health cache now dns probe port podId hr hh
  · rintro ⟨hm, hu⟩
    subst hm
    subst hu
    exact ⟨(checkAllPodsHavePodId dns probe).result, rfl⟩
  · have hb : ¬ (("GET" == "GET" && "/health?x=1" == "/health") = true) := by decide
    have hs : (pathSegments "/health?x=1").head? = some "health" := by decide
    unfold httpHandler routeRequest
    rw [if_neg hb, hs]
    exact routePod_discoveries cache now dns probe port "health"
  · have hb : ¬ (("POST" == "GET" && "/health" == "/health") = true) := by decide
    have hs : (pathSegments "/health").head? = some "health" := by decide
    unfold httpHandler routeRequest
    rw [if_neg hb, hs]
    exact routePod_discoveries cache now dns probe port "health"

/-- Witness for C10: the exact `GET /health` request takes the health
branch. -/
theorem health_endpoint_matched_only_by_exact_get_health_witness :
    ∃ hr, (httpHandler [] 0 (.fatal "boom") (fun _ => .failure)
      "2567" "GET" "/health").response = .health hr :=
  (health_endpoint_matched_only_by_exact_get_health [] 0 (.fatal "boom")
    (fun _ => .failure) "2567" "GET" "/health").1.mpr ⟨rfl, rfl⟩

end GameProxy
